import Mathlib

/-!
Shallow embedding of `src/brand_dashboard.py`, an electric-vehicle
comparison dashboard: a CSV loader with one lenient numeric coercion
(`pd.to_numeric(..., errors='coerce')` on `cargo_volume_l`), three
cascading multi-select filters (brand, drivetrain, model), a min-max
normalizer feeding a radar chart, and conditional chart rendering.

Tabular data is modelled as lists of records; numeric cells are `Option ℚ`
(where `none` plays the role of pandas' NaN / missing value) and string
cells are `Option String`.
-/

namespace EVDash

/-- One row of the CSV as read before the loader's numeric coercion:
every column the dashboard's rename map (lines 52-73) names.  The
`cargo_volume_l` cell is still a raw string, since it is the one column
the loader parses (`brand_dashboard.py` line 13); every other column is
taken as-is from the file. -/
structure RawRecord where
  brand : Option String
  model : Option String
  top_speed_kmh : Option ℚ
  battery_capacity_kWh : Option ℚ
  battery_type : Option String
  torque_nm : Option ℚ
  efficiency_wh_per_km : Option ℚ
  range_km : Option ℚ
  acceleration_0_100_s : Option ℚ
  fast_charging_power_kw_dc : Option ℚ
  fast_charge_port : Option String
  towing_capacity_kg : Option ℚ
  cargo_volume_l : String
  seats : Option ℚ
  drivetrain : Option String
  segment : Option String
  length_mm : Option ℚ
  width_mm : Option ℚ
  height_mm : Option ℚ
  deriving DecidableEq, Repr

/-- One row after loading: identical to `RawRecord` except that
`cargo_volume_l` has been coerced to a numeric cell (`none` = NaN). -/
structure Record where
  brand : Option String
  model : Option String
  top_speed_kmh : Option ℚ
  battery_capacity_kWh : Option ℚ
  battery_type : Option String
  torque_nm : Option ℚ
  efficiency_wh_per_km : Option ℚ
  range_km : Option ℚ
  acceleration_0_100_s : Option ℚ
  fast_charging_power_kw_dc : Option ℚ
  fast_charge_port : Option String
  towing_capacity_kg : Option ℚ
  cargo_volume_l : Option ℚ
  seats : Option ℚ
  drivetrain : Option String
  segment : Option String
  length_mm : Option ℚ
  width_mm : Option ℚ
  height_mm : Option ℚ
  deriving DecidableEq, Repr

/-- `brand_dashboard.py` lines 11-14 (`load_data`), one row:
`df['cargo_volume_l'] = pd.to_numeric(df['cargo_volume_l'], errors='coerce')`.
The numeric parser is a parameter (`parse`); `errors='coerce'` means an
unparseable cell becomes `none` (NaN), never an exception, and no other
column is touched. -/
def load_row (parse : String → Option ℚ) (r : RawRecord) : Record :=
  { brand := r.brand
    model := r.model
    top_speed_kmh := r.top_speed_kmh
    battery_capacity_kWh := r.battery_capacity_kWh
    battery_type := r.battery_type
    torque_nm := r.torque_nm
    efficiency_wh_per_km := r.efficiency_wh_per_km
    range_km := r.range_km
    acceleration_0_100_s := r.acceleration_0_100_s
    fast_charging_power_kw_dc := r.fast_charging_power_kw_dc
    fast_charge_port := r.fast_charge_port
    towing_capacity_kg := r.towing_capacity_kg
    cargo_volume_l := parse r.cargo_volume_l
    seats := r.seats
    drivetrain := r.drivetrain
    segment := r.segment
    length_mm := r.length_mm
    width_mm := r.width_mm
    height_mm := r.height_mm }

/-- `load_data` (lines 11-14): read the table and coerce the single
`cargo_volume_l` column. -/
def load_data (parse : String → Option ℚ) (rows : List RawRecord) : List Record :=
  rows.map (load_row parse)

/-- pandas `Series.isin(sel)` semantics for a single cell: a missing value
(NaN) is never a member of the selection. -/
def memOpt (c : Option String) (sel : List String) : Bool :=
  match c with
  | some v => sel.contains v
  | none => false

/-- `sorted(series.dropna().unique())` (lines 34, 38, 42-43): drop missing
cells, take distinct values (first occurrence), sort ascending. -/
def sortedUnique (cells : List (Option String)) : List String :=
  List.insertionSort (· ≤ ·) (cells.filterMap id).dedup

/-- Line 34: `brands = sorted(df['brand'].dropna().unique())`. -/
def brandOptions (df : List Record) : List String :=
  sortedUnique (df.map (·.brand))

/-- Line 38: drivetrain options = sorted distinct drivetrains of records
whose brand is selected. -/
def drivetrainOptions (df : List Record) (selected_brands : List String) : List String :=
  sortedUnique ((df.filter (fun r => memOpt r.brand selected_brands)).map (·.drivetrain))

/-- Lines 42-43: model options = sorted distinct models of records whose
brand and drivetrain are both selected. -/
def modelOptions (df : List Record) (selected_brands selected_drivetrains : List String) :
    List String :=
  sortedUnique ((df.filter (fun r =>
    memOpt r.brand selected_brands && memOpt r.drivetrain selected_drivetrains)).map (·.model))

/-- Lines 46-48: `df_filtered = df[brand.isin(sb) & drivetrain.isin(sd) & model.isin(sm)]`. -/
def df_filtered (df : List Record) (sb sd sm : List String) : List Record :=
  df.filter (fun r => memOpt r.brand sb && memOpt r.drivetrain sd && memOpt r.model sm)

/-- `random.sample(population, k)` drew for us some permutation of the
population; the sample is its first `k` elements.  The permutation (the
draw of the unseeded random source) is a parameter of every statement
about defaults. -/
def randomSample (draw : List String) (k : Nat) : List String :=
  draw.take k

/-- Line 35: `default=random.sample(brands, min(5, len(brands)))`. -/
def defaultSelectedBrands (df : List Record) (draw : List String) : List String :=
  randomSample draw (min 5 (brandOptions df).length)

/-- Line 39: `default=drivetrains` — all drivetrain options under the
current brand selection. -/
def defaultSelectedDrivetrains (df : List Record) (sb : List String) : List String :=
  drivetrainOptions df sb

/-- Line 44: `default=random.sample(models, min(5, len(models)))`. -/
def defaultSelectedModels (df : List Record) (sb sd : List String) (draw : List String) :
    List String :=
  randomSample draw (min 5 (modelOptions df sb sd).length)

/-- One row of `radar_df` (line 127): `df_filtered[["model"] + radar_cols].dropna()`
keeps only rows with all of model and the five radar features present, so a
kept row has plain (non-optional) values. -/
structure RadarRow where
  model : String
  top_speed_kmh : ℚ
  acceleration_0_100_s : ℚ
  range_km : ℚ
  battery_capacity_kWh : ℚ
  cargo_volume_l : ℚ
  deriving DecidableEq, Repr

/-- The `dropna` test of line 127: all of model and the five radar feature
columns are present. -/
def hasAllRadar (r : Record) : Bool :=
  r.model.isSome && r.top_speed_kmh.isSome && r.acceleration_0_100_s.isSome &&
    r.range_km.isSome && r.battery_capacity_kWh.isSome && r.cargo_volume_l.isSome

/-- Projection of one `df_filtered` row onto `["model"] + radar_cols` with
the `dropna` of line 127: `some` exactly when no needed cell is missing,
carrying the original cell values unchanged. -/
def toRadarRow (r : Record) : Option RadarRow :=
  match r.model, r.top_speed_kmh, r.acceleration_0_100_s, r.range_km,
      r.battery_capacity_kWh, r.cargo_volume_l with
  | some m, some ts, some ac, some rk, some bc, some cv =>
      some ⟨m, ts, ac, rk, bc, cv⟩
  | _, _, _, _, _, _ => none

/-- Line 127: `radar_df = df_filtered[["model"] + radar_cols].dropna()`. -/
def radar_df (rows : List Record) : List RadarRow :=
  rows.filterMap toRadarRow

/-- Minimum of a column, as `MinMaxScaler.fit` computes `data_min_`. -/
def minQ : List ℚ → ℚ
  | [] => 0
  | [x] => x
  | x :: y :: xs => min x (minQ (y :: xs))

/-- Maximum of a column, as `MinMaxScaler.fit` computes `data_max_`. -/
def maxQ : List ℚ → ℚ
  | [] => 0
  | [x] => x
  | x :: y :: xs => max x (maxQ (y :: xs))

/-- One cell of sklearn `MinMaxScaler.fit_transform` (line 133) with the
default feature range (0,1): `(x - min) / (max - min)`, where sklearn's
`_handle_zeros_in_scale` replaces a zero range by 1 (so a constant column
maps to 0 rather than raising a division error). -/
def mmScale (xs : List ℚ) (x : ℚ) : ℚ :=
  (x - minQ xs) / (if maxQ xs - minQ xs = 0 then 1 else maxQ xs - minQ xs)

/-- Line 131: `radar_df_norm["acceleration_0_100_s"] = -radar_df_norm["acceleration_0_100_s"]`,
applied to one row. -/
def negAccel (r : RadarRow) : RadarRow :=
  { r with acceleration_0_100_s := -r.acceleration_0_100_s }

/-- One output row of `scaler.fit_transform(radar_df_norm[radar_cols])`
(line 133): each of the five feature cells is min-max scaled against its
own column of the (already acceleration-negated) frame `negd`. -/
def normRow (negd : List RadarRow) (r : RadarRow) : RadarRow :=
  { model := r.model
    top_speed_kmh := mmScale (negd.map (·.top_speed_kmh)) r.top_speed_kmh
    acceleration_0_100_s :=
      mmScale (negd.map (·.acceleration_0_100_s)) r.acceleration_0_100_s
    range_km := mmScale (negd.map (·.range_km)) r.range_km
    battery_capacity_kWh :=
      mmScale (negd.map (·.battery_capacity_kWh)) r.battery_capacity_kWh
    cargo_volume_l := mmScale (negd.map (·.cargo_volume_l)) r.cargo_volume_l }

/-- Lines 130-133: copy `radar_df`, negate the acceleration column, then
min-max scale the five feature columns with `MinMaxScaler`. -/
def radar_df_norm (rows : List RadarRow) : List RadarRow :=
  let negd := rows.map negAccel
  negd.map (normRow negd)

theorem minQ_le {xs : List ℚ} {x : ℚ} (hx : x ∈ xs) : minQ xs ≤ x := by
  induction xs with
  | nil => cases hx
  | cons a l ih =>
    cases l with
    | nil =>
      have hxa : x = a := by simpa using hx
      subst hxa; exact le_refl _
    | cons b m =>
      rcases List.mem_cons.mp hx with rfl | h
      · exact min_le_left _ _
      · exact le_trans (min_le_right _ _) (ih h)

theorem le_maxQ {xs : List ℚ} {x : ℚ} (hx : x ∈ xs) : x ≤ maxQ xs := by
  induction xs with
  | nil => cases hx
  | cons a l ih =>
    cases l with
    | nil =>
      have hxa : x = a := by simpa using hx
      subst hxa; exact le_refl _
    | cons b m =>
      rcases List.mem_cons.mp hx with rfl | h
      · exact le_max_left _ _
      · exact le_trans (ih h) (le_max_right _ _)

theorem minQ_le_maxQ (xs : List ℚ) : minQ xs ≤ maxQ xs := by
  cases xs with
  | nil => simp [minQ, maxQ]
  | cons a l =>
    exact le_trans (minQ_le (List.mem_cons_self a l)) (le_maxQ (List.mem_cons_self a l))

theorem minQ_lt_maxQ {xs : List ℚ} {a b : ℚ} (ha : a ∈ xs) (hb : b ∈ xs)
    (hab : a ≠ b) : minQ xs < maxQ xs := by
  rcases lt_or_gt_of_ne hab with h | h
  · exact lt_of_le_of_lt (minQ_le ha) (lt_of_lt_of_le h (le_maxQ hb))
  · exact lt_of_le_of_lt (minQ_le hb) (lt_of_lt_of_le h (le_maxQ ha))

theorem mmScale_nonneg {xs : List ℚ} {x : ℚ} (hx : x ∈ xs) : 0 ≤ mmScale xs x := by
  unfold mmScale
  have hm : minQ xs ≤ x := minQ_le hx
  have hd : (0:ℚ) ≤ maxQ xs - minQ xs := sub_nonneg.mpr (minQ_le_maxQ xs)
  by_cases h : maxQ xs - minQ xs = 0
  · simp only [h, if_pos rfl]
    have : (0:ℚ) ≤ x - minQ xs := sub_nonneg.mpr hm
    simpa using this
  · rw [if_neg h]
    exact div_nonneg (sub_nonneg.mpr hm) hd

theorem mmScale_le_one {xs : List ℚ} {x : ℚ} (hx : x ∈ xs) : mmScale xs x ≤ 1 := by
  unfold mmScale
  have hM : x ≤ maxQ xs := le_maxQ hx
  have hm : minQ xs ≤ x := minQ_le hx
  by_cases h : maxQ xs - minQ xs = 0
  · simp only [h, if_pos rfl]
    have hxm : x = minQ xs := le_antisymm (by linarith) hm
    simp [hxm]
  · rw [if_neg h]
    have hd : (0:ℚ) < maxQ xs - minQ xs :=
      lt_of_le_of_ne (sub_nonneg.mpr (minQ_le_maxQ xs)) (Ne.symm h)
    rw [div_le_one hd]
    linarith

theorem mmScale_mono (xs : List ℚ) {x y : ℚ} (hxy : x ≤ y) :
    mmScale xs x ≤ mmScale xs y := by
  unfold mmScale
  by_cases h : maxQ xs - minQ xs = 0
  · simp only [h, if_pos rfl]
    have : x - minQ xs ≤ y - minQ xs := by linarith
    simpa using this
  · rw [if_neg h]
    have hd : (0:ℚ) < maxQ xs - minQ xs :=
      lt_of_le_of_ne (sub_nonneg.mpr (minQ_le_maxQ xs)) (Ne.symm h)
    exact (div_le_div_iff_of_pos_right hd).mpr (by linarith)

theorem mmScale_max_eq_one {xs : List ℚ} (hne : minQ xs ≠ maxQ xs) :
    mmScale xs (maxQ xs) = 1 := by
  unfold mmScale
  have h : maxQ xs - minQ xs ≠ 0 := fun hc => hne (by linarith)
  rw [if_neg h, div_self h]

/-- `df_filtered.sort_values("acceleration_0_100_s")` (line 98): stable
sort on the acceleration column; pandas places missing values last. -/
def accelKeyLe (a b : Record) : Bool :=
  match a.acceleration_0_100_s, b.acceleration_0_100_s with
  | some x, some y => x ≤ y
  | some _, none => true
  | none, some _ => false
  | none, none => true

/-- The line chart's input frame (line 98). -/
def sortByAccel (rows : List Record) : List Record :=
  rows.mergeSort accelKeyLe

/-- The data the line chart of lines 97-106 actually plots: for each row
of the sorted frame, x = model and y = the raw acceleration value. -/
def lineChartData (rows : List Record) : List (Option String × Option ℚ) :=
  (sortByAccel rows).map (fun r => (r.model, r.acceleration_0_100_s))

/-- One Streamlit element emitted by the page body (lines 51-160), tagged
with the data it renders. -/
inductive UIElement where
  | subheader : String → UIElement
  | specTable : List Record → UIElement
  | bubbleChart : List Record → UIElement
  | lineChart : List (Option String × Option ℚ) → UIElement
  | barChart : List Record → UIElement
  | radarChart : List RadarRow → UIElement
  | warning : String → UIElement
  | rawData : List Record → UIElement
  deriving DecidableEq, Repr

/-- The four chart panels (bubble, line, bar, radar). -/
def isChartElement : UIElement → Bool
  | .bubbleChart _ => true
  | .lineChart _ => true
  | .barChart _ => true
  | .radarChart _ => true
  | _ => false

/-- Lines 51-160 of `brand_dashboard.py`, as the sequence of elements the
page emits for a given `df_filtered`: the key-specifications table is
always shown; if the filtered frame is non-empty the four charts are
rendered (the radar chart only when `radar_df` is non-empty, line 129);
otherwise a warning is shown instead; the raw-data expander always
follows. -/
def renderPage (fv : List Record) : List UIElement :=
  [UIElement.subheader "Key Specifications of Selected Models",
   UIElement.specTable fv]
  ++ (if fv.isEmpty then
        [UIElement.warning "Please select at least one EV model to compare."]
      else
        [UIElement.subheader "Visual Comparison of Models",
         UIElement.bubbleChart fv,
         UIElement.lineChart (lineChartData fv),
         UIElement.barChart fv,
         UIElement.subheader "Radar Chart: Multi-Feature Model Comparison"]
        ++ (if (radar_df fv).isEmpty then []
            else [UIElement.radarChart (radar_df_norm (radar_df fv))]))
  ++ [UIElement.rawData fv]

/-!
Stateful model of the radar section (lines 127-133), for the frame
effect of `radar_df.copy()`: dataframes live on a heap of cells, Python
variables are cell indices, `df[...] = ...` writes a cell in place, and
`.copy()` (as well as column projection / `dropna`, which in pandas also
return new frames) allocates a fresh cell.  A radar frame is represented
as a `List Record` whose non-radar columns are all `none` (dropped by the
projection of line 127).
-/

/-- Column projection `df_filtered[["model"] + radar_cols]` (line 127),
one row: keeps model and the five radar feature cells, drops the rest. -/
def projectRadarCols (r : Record) : Record :=
  { brand := none
    model := r.model
    top_speed_kmh := r.top_speed_kmh
    battery_capacity_kWh := r.battery_capacity_kWh
    battery_type := none
    torque_nm := none
    efficiency_wh_per_km := none
    range_km := r.range_km
    acceleration_0_100_s := r.acceleration_0_100_s
    fast_charging_power_kw_dc := none
    fast_charge_port := none
    towing_capacity_kg := none
    cargo_volume_l := r.cargo_volume_l
    seats := none
    drivetrain := none
    segment := none
    length_mm := none
    width_mm := none
    height_mm := none }

/-- Line 127 as a frame transformer: project onto the six columns, then
`dropna` over them. -/
def radarFrame (rows : List Record) : List Record :=
  (rows.map projectRadarCols).filter hasAllRadar

/-- Line 131 as an in-place column assignment on a frame: negate every
cell of the acceleration column. -/
def negAccelCol (rows : List Record) : List Record :=
  rows.map (fun r => { r with acceleration_0_100_s := r.acceleration_0_100_s.map Neg.neg })

/-- Line 133 as an in-place assignment of the five scaled columns:
each present cell is min-max scaled against its own column (sklearn
`MinMaxScaler.fit_transform` semantics, see `mmScale`). -/
def scaleRadarCols (rows : List Record) : List Record :=
  rows.map (fun r =>
    { r with
      top_speed_kmh :=
        r.top_speed_kmh.map (fun x => mmScale (rows.filterMap (·.top_speed_kmh)) x)
      acceleration_0_100_s :=
        r.acceleration_0_100_s.map
          (fun x => mmScale (rows.filterMap (·.acceleration_0_100_s)) x)
      range_km := r.range_km.map (fun x => mmScale (rows.filterMap (·.range_km)) x)
      battery_capacity_kWh :=
        r.battery_capacity_kWh.map
          (fun x => mmScale (rows.filterMap (·.battery_capacity_kWh)) x)
      cargo_volume_l :=
        r.cargo_volume_l.map (fun x => mmScale (rows.filterMap (·.cargo_volume_l)) x) })

/-- Heap of dataframe cells; a Python variable holding a frame is an index. -/
structure PyHeap where
  cells : List (List Record)
  deriving Repr

/-- Read the frame a variable refers to. -/
def heapRead (h : PyHeap) (i : Nat) : List Record :=
  h.cells.getD i []

/-- Allocate a fresh frame, returning the new heap and the new index. -/
def heapAlloc (h : PyHeap) (v : List Record) : PyHeap × Nat :=
  (⟨h.cells ++ [v]⟩, h.cells.length)

/-- Overwrite the frame a variable refers to (in-place mutation such as
column assignment). -/
def heapWrite (h : PyHeap) (i : Nat) (v : List Record) : PyHeap :=
  ⟨h.cells.set i v⟩

/-- Lines 127-133 run against the heap, with `fid` the variable
`df_filtered`: line 127 allocates `radar_df` (projection + `dropna`
return a new frame); line 130 `radar_df.copy()` allocates `radar_df_norm`
as a fresh cell holding the same rows; lines 131 and 133 mutate
`radar_df_norm`'s cell in place. -/
def runRadarSection (h : PyHeap) (fid : Nat) : PyHeap :=
  let a1 := heapAlloc h (radarFrame (heapRead h fid))
  let a2 := heapAlloc a1.1 (heapRead a1.1 a1.2)
  let h3 := heapWrite a2.1 a2.2 (negAccelCol (heapRead a2.1 a2.2))
  heapWrite h3 a2.2 (scaleRadarCols (heapRead h3 a2.2))

/-- The spec's FilteredView, written from its words alone (for the
refinement comparison of the Filter Engine): "the subsequence of Dataset
records matching all three selection sets simultaneously (brand ∈
selected_brands AND drivetrain ∈ selected_drivetrains AND model ∈
selected_models). Row order preserved from Dataset". -/
def specFilteredView (df : List Record) (sb sd sm : List String) : List Record :=
  match df with
  | [] => []
  | r :: rest =>
      if memOpt r.brand sb && memOpt r.drivetrain sd && memOpt r.model sm then
        r :: specFilteredView rest sb sd sm
      else
        specFilteredView rest sb sd sm

/-- A single-row radar input, used to exhibit the degenerate
normalization case. -/
def radarRowC1 : RadarRow :=
  { model := "X", top_speed_kmh := 100, acceleration_0_100_s := 5,
    range_km := 300, battery_capacity_kWh := 50, cargo_volume_l := 400 }

/-- First row of the two-row radar input used by the witnesses. -/
def radarRowW1 : RadarRow :=
  { model := "X", top_speed_kmh := 100, acceleration_0_100_s := 5,
    range_km := 300, battery_capacity_kWh := 50, cargo_volume_l := 400 }

/-- Second row of the two-row radar input used by the witnesses. -/
def radarRowW2 : RadarRow :=
  { model := "Y", top_speed_kmh := 200, acceleration_0_100_s := 7,
    range_km := 400, battery_capacity_kWh := 80, cargo_volume_l := 500 }

/-- A raw row whose cargo-volume cell is not numeric, as in the spec's
loader scenario. -/
def rawRecordW : RawRecord :=
  { brand := some "A", model := some "X", top_speed_kmh := some 180,
    battery_capacity_kWh := some 60, battery_type := some "LFP",
    torque_nm := some 300, efficiency_wh_per_km := some 150,
    range_km := some 420, acceleration_0_100_s := some 6,
    fast_charging_power_kw_dc := some 120, fast_charge_port := some "CCS",
    towing_capacity_kg := some 1000, cargo_volume_l := "n/a",
    seats := some 5, drivetrain := some "AWD", segment := some "C",
    length_mm := some 4500, width_mm := some 1800, height_mm := some 1600 }

/-- A numeric parser on which every cell fails, exercising the
`errors='coerce'` path of the loader. -/
def parseFailW : String → Option ℚ := fun _ => none

/-- First loaded row of the concrete two-row dataset used by witnesses. -/
def recordW1 : Record :=
  { brand := some "A", model := some "X", top_speed_kmh := some 180,
    battery_capacity_kWh := some 60, battery_type := some "LFP",
    torque_nm := some 300, efficiency_wh_per_km := some 150,
    range_km := some 420, acceleration_0_100_s := some 6,
    fast_charging_power_kw_dc := some 120, fast_charge_port := some "CCS",
    towing_capacity_kg := some 1000, cargo_volume_l := some 450,
    seats := some 5, drivetrain := some "AWD", segment := some "C",
    length_mm := some 4500, width_mm := some 1800, height_mm := some 1600 }

/-- Second loaded row of the concrete two-row dataset (its cargo volume
is missing, as after a failed coercion). -/
def recordW2 : Record :=
  { brand := some "B", model := some "Y", top_speed_kmh := some 220,
    battery_capacity_kWh := some 90, battery_type := some "NMC",
    torque_nm := some 500, efficiency_wh_per_km := some 180,
    range_km := some 520, acceleration_0_100_s := some 4,
    fast_charging_power_kw_dc := some 250, fast_charge_port := some "CCS",
    towing_capacity_kg := some 1600, cargo_volume_l := none,
    seats := some 5, drivetrain := some "RWD", segment := some "D",
    length_mm := some 4900, width_mm := some 1900, height_mm := some 1500 }

/-- A concrete two-row dataset. -/
def dfW : List Record := [recordW1, recordW2]

/-- A concrete heap whose single cell holds the filtered frame. -/
def heapW : PyHeap := ⟨[dfW]⟩

theorem memOpt_nil (c : Option String) : memOpt c [] = false := by
  cases c <;> rfl

theorem sortedUnique_sorted (cells : List (Option String)) :
    (sortedUnique cells).Sorted (· ≤ ·) :=
  List.sorted_insertionSort _ _

theorem sortedUnique_nodup (cells : List (Option String)) :
    (sortedUnique cells).Nodup :=
  (List.perm_insertionSort _ _).nodup_iff.mpr (List.nodup_dedup _)

theorem mem_sortedUnique {cells : List (Option String)} {v : String} :
    v ∈ sortedUnique cells ↔ some v ∈ cells := by
  rw [sortedUnique, (List.perm_insertionSort _ _).mem_iff, List.mem_dedup,
    List.mem_filterMap]
  constructor
  · rintro ⟨o, ho, rfl⟩
    exact ho
  · intro hv
    exact ⟨some v, hv, rfl⟩

/-- A sample is part of the permutation the random source drew. -/
theorem randomSample_sublist (draw : List String) (k : Nat) :
    (randomSample draw k).Sublist draw :=
  List.take_sublist _ _

theorem toRadarRow_eq_some {q : Record} {rr : RadarRow} (h : toRadarRow q = some rr) :
    q.model = some rr.model ∧ q.top_speed_kmh = some rr.top_speed_kmh ∧
    q.acceleration_0_100_s = some rr.acceleration_0_100_s ∧
    q.range_km = some rr.range_km ∧
    q.battery_capacity_kWh = some rr.battery_capacity_kWh ∧
    q.cargo_volume_l = some rr.cargo_volume_l := by
  unfold toRadarRow at h
  split at h
  · cases h
    simp_all
  · cases h

theorem hasAllRadar_false_toRadarRow {q : Record} (h : hasAllRadar q = false) :
    toRadarRow q = none := by
  unfold toRadarRow
  split
  · exfalso
    simp_all [hasAllRadar]
  · rfl

theorem radar_df_norm_length (rows : List RadarRow) :
    (radar_df_norm rows).length = rows.length := by
  simp [radar_df_norm]

theorem mem_radar_df_norm {rows : List RadarRow} {rr : RadarRow}
    (hrr : rr ∈ radar_df_norm rows) :
    ∃ r ∈ rows, normRow (rows.map negAccel) (negAccel r) = rr := by
  rw [radar_df_norm] at hrr
  simp only [List.mem_map] at hrr
  obtain ⟨y, hy, hyr⟩ := hrr
  obtain ⟨r, hr, rfl⟩ := hy
  exact ⟨r, hr, hyr⟩

/-- Column bounds for one scaled cell: scaling a value of a column against
that column stays within [0,1]. -/
theorem mmScale_col_bounds (g : RadarRow → ℚ) {l : List RadarRow} {r : RadarRow}
    (hr : r ∈ l) :
    0 ≤ mmScale (l.map g) (g r) ∧ mmScale (l.map g) (g r) ≤ 1 :=
  ⟨mmScale_nonneg (List.mem_map_of_mem g hr),
   mmScale_le_one (List.mem_map_of_mem g hr)⟩

/-- Claim C1, counterexample: on a one-row RadarInput the Normalizer does
not yield 0.5 for the features of that row — `MinMaxScaler` maps a
constant column to 0, so the claim as stated fails at this concrete
input. -/
theorem normalizer_single_row_not_half :
    ¬ ∀ rr ∈ radar_df_norm [radarRowC1],
        rr.top_speed_kmh = 1/2 ∧ rr.acceleration_0_100_s = 1/2 ∧
        rr.range_km = 1/2 ∧ rr.battery_capacity_kWh = 1/2 ∧
        rr.cargo_volume_l = 1/2 := by
  intro hall
  have h0 : radar_df_norm [radarRowC1] =
      [{ model := "X", top_speed_kmh := 0, acceleration_0_100_s := 0,
         range_km := 0, battery_capacity_kWh := 0, cargo_volume_l := 0 }] := by
    norm_num [radar_df_norm, normRow, negAccel, mmScale, minQ, maxQ, radarRowC1]
  rw [h0] at hall
  have hz := hall _ (List.mem_singleton_self _)
  norm_num at hz

/-- Claim C1 (amended): if RadarInput contains exactly one row after
dropping rows with missing radar features, the Normalizer does not raise
a division-by-zero error (sklearn's `MinMaxScaler` replaces a zero column
range by 1) and yields 0 — not 0.5 — as the normalized value of every one
of the five radar features of that row. -/
theorem normalizer_single_row_yields_zero (r : RadarRow) :
    radar_df_norm [r] =
      [{ model := r.model, top_speed_kmh := 0, acceleration_0_100_s := 0,
         range_km := 0, battery_capacity_kWh := 0, cargo_volume_l := 0 }] := by
  simp [radar_df_norm, normRow, negAccel, mmScale, minQ, maxQ]

/-- Claim C5: for every RadarInput in whose five feature columns min ≠ max,
every normalized output value produced by the Normalizer lies in the
closed interval [0,1], for every feature column and every record. -/
theorem normalizer_output_in_unit_interval (rows : List RadarRow)
    (_h1 : minQ (rows.map (·.top_speed_kmh)) ≠ maxQ (rows.map (·.top_speed_kmh)))
    (_h2 : minQ (rows.map (·.acceleration_0_100_s)) ≠ maxQ (rows.map (·.acceleration_0_100_s)))
    (_h3 : minQ (rows.map (·.range_km)) ≠ maxQ (rows.map (·.range_km)))
    (_h4 : minQ (rows.map (·.battery_capacity_kWh)) ≠ maxQ (rows.map (·.battery_capacity_kWh)))
    (_h5 : minQ (rows.map (·.cargo_volume_l)) ≠ maxQ (rows.map (·.cargo_volume_l))) :
    ∀ rr ∈ radar_df_norm rows,
      (0 ≤ rr.top_speed_kmh ∧ rr.top_speed_kmh ≤ 1) ∧
      (0 ≤ rr.acceleration_0_100_s ∧ rr.acceleration_0_100_s ≤ 1) ∧
      (0 ≤ rr.range_km ∧ rr.range_km ≤ 1) ∧
      (0 ≤ rr.battery_capacity_kWh ∧ rr.battery_capacity_kWh ≤ 1) ∧
      (0 ≤ rr.cargo_volume_l ∧ rr.cargo_volume_l ≤ 1) := by
  intro rr hrr
  obtain ⟨r, hr, rfl⟩ := mem_radar_df_norm hrr
  have hmem : negAccel r ∈ rows.map negAccel := List.mem_map_of_mem _ hr
  simp only [normRow]
  exact ⟨mmScale_col_bounds _ hmem, mmScale_col_bounds _ hmem,
    mmScale_col_bounds _ hmem, mmScale_col_bounds _ hmem, mmScale_col_bounds _ hmem⟩

/-- Claim C4: negation followed by min-max scaling is monotonic-reversing
on acceleration — in every RadarInput with at least two rows and
non-equal acceleration values, the record with the lowest raw
acceleration time has the highest normalized acceleration value among all
records of RadarInput. -/
theorem fastest_acceleration_highest_normalized (rows : List RadarRow)
    (_hlen : 2 ≤ rows.length) (i : Fin rows.length)
    (_hne : ∃ a ∈ rows, ∃ b ∈ rows, a.acceleration_0_100_s ≠ b.acceleration_0_100_s)
    (hmin : ∀ r ∈ rows, (rows.get i).acceleration_0_100_s ≤ r.acceleration_0_100_s) :
    ∀ rr ∈ radar_df_norm rows,
      rr.acceleration_0_100_s ≤
        ((radar_df_norm rows).get
          (Fin.cast (radar_df_norm_length rows).symm i)).acceleration_0_100_s := by
  intro rr hrr
  obtain ⟨r, hr, rfl⟩ := mem_radar_df_norm hrr
  have hget : (radar_df_norm rows).get (Fin.cast (radar_df_norm_length rows).symm i)
      = normRow (rows.map negAccel) (negAccel (rows.get i)) := by
    simp [radar_df_norm, List.get_eq_getElem, List.getElem_map]
  rw [hget]
  simp only [normRow, negAccel]
  exact mmScale_mono _ (by simpa using neg_le_neg (hmin r hr))

/-- Witness for claim C4 at the concrete two-row radar input: row 0 has
the lowest raw acceleration and attains the highest normalized value. -/
theorem fastest_acceleration_highest_normalized_witness :
    2 ≤ ([radarRowW1, radarRowW2] : List RadarRow).length
  ∧ (∃ a ∈ ([radarRowW1, radarRowW2] : List RadarRow),
      ∃ b ∈ ([radarRowW1, radarRowW2] : List RadarRow),
        a.acceleration_0_100_s ≠ b.acceleration_0_100_s)
  ∧ (∀ r ∈ ([radarRowW1, radarRowW2] : List RadarRow),
      (([radarRowW1, radarRowW2] : List RadarRow).get
          ⟨0, by norm_num⟩).acceleration_0_100_s ≤ r.acceleration_0_100_s)
  ∧ ∀ rr ∈ radar_df_norm [radarRowW1, radarRowW2],
      rr.acceleration_0_100_s ≤
        ((radar_df_norm [radarRowW1, radarRowW2]).get
          (Fin.cast (radar_df_norm_length [radarRowW1, radarRowW2]).symm
            ⟨0, by norm_num⟩)).acceleration_0_100_s := by
  have hlen : 2 ≤ ([radarRowW1, radarRowW2] : List RadarRow).length := by norm_num
  have hne : ∃ a ∈ ([radarRowW1, radarRowW2] : List RadarRow),
      ∃ b ∈ ([radarRowW1, radarRowW2] : List RadarRow),
        a.acceleration_0_100_s ≠ b.acceleration_0_100_s := by
    refine ⟨radarRowW1, by simp, radarRowW2, by simp, ?_⟩
    norm_num [radarRowW1, radarRowW2]
  have hmin : ∀ r ∈ ([radarRowW1, radarRowW2] : List RadarRow),
      (([radarRowW1, radarRowW2] : List RadarRow).get
          ⟨0, by norm_num⟩).acceleration_0_100_s ≤ r.acceleration_0_100_s := by
    intro r hr
    rcases List.mem_cons.mp hr with rfl | hr2
    · norm_num
    · rcases List.mem_cons.mp hr2 with rfl | hr3
      · norm_num [radarRowW1, radarRowW2]
      · cases hr3
  exact ⟨hlen, hne, hmin,
    fastest_acceleration_highest_normalized [radarRowW1, radarRowW2] hlen
      ⟨0, by norm_num⟩ hne hmin⟩

/-- Witness for claim C5 at the concrete two-row radar input: each of the
five columns has min ≠ max and all normalized values lie in [0,1]. -/
theorem normalizer_output_in_unit_interval_witness :
    (minQ ([radarRowW1, radarRowW2].map (·.top_speed_kmh))
        ≠ maxQ ([radarRowW1, radarRowW2].map (·.top_speed_kmh)))
  ∧ (minQ ([radarRowW1, radarRowW2].map (·.acceleration_0_100_s))
        ≠ maxQ ([radarRowW1, radarRowW2].map (·.acceleration_0_100_s)))
  ∧ (minQ ([radarRowW1, radarRowW2].map (·.range_km))
        ≠ maxQ ([radarRowW1, radarRowW2].map (·.range_km)))
  ∧ (minQ ([radarRowW1, radarRowW2].map (·.battery_capacity_kWh))
        ≠ maxQ ([radarRowW1, radarRowW2].map (·.battery_capacity_kWh)))
  ∧ (minQ ([radarRowW1, radarRowW2].map (·.cargo_volume_l))
        ≠ maxQ ([radarRowW1, radarRowW2].map (·.cargo_volume_l)))
  ∧ ∀ rr ∈ radar_df_norm [radarRowW1, radarRowW2],
      (0 ≤ rr.top_speed_kmh ∧ rr.top_speed_kmh ≤ 1) ∧
      (0 ≤ rr.acceleration_0_100_s ∧ rr.acceleration_0_100_s ≤ 1) ∧
      (0 ≤ rr.range_km ∧ rr.range_km ≤ 1) ∧
      (0 ≤ rr.battery_capacity_kWh ∧ rr.battery_capacity_kWh ≤ 1) ∧
      (0 ≤ rr.cargo_volume_l ∧ rr.cargo_volume_l ≤ 1) := by
  have h1 : minQ ([radarRowW1, radarRowW2].map (·.top_speed_kmh))
      ≠ maxQ ([radarRowW1, radarRowW2].map (·.top_speed_kmh)) := by
    norm_num [minQ, maxQ, radarRowW1, radarRowW2, min_def, max_def]
  have h2 : minQ ([radarRowW1, radarRowW2].map (·.acceleration_0_100_s))
      ≠ maxQ ([radarRowW1, radarRowW2].map (·.acceleration_0_100_s)) := by
    norm_num [minQ, maxQ, radarRowW1, radarRowW2, min_def, max_def]
  have h3 : minQ ([radarRowW1, radarRowW2].map (·.range_km))
      ≠ maxQ ([radarRowW1, radarRowW2].map (·.range_km)) := by
    norm_num [minQ, maxQ, radarRowW1, radarRowW2, min_def, max_def]
  have h4 : minQ ([radarRowW1, radarRowW2].map (·.battery_capacity_kWh))
      ≠ maxQ ([radarRowW1, radarRowW2].map (·.battery_capacity_kWh)) := by
    norm_num [minQ, maxQ, radarRowW1, radarRowW2, min_def, max_def]
  have h5 : minQ ([radarRowW1, radarRowW2].map (·.cargo_volume_l))
      ≠ maxQ ([radarRowW1, radarRowW2].map (·.cargo_volume_l)) := by
    norm_num [minQ, maxQ, radarRowW1, radarRowW2, min_def, max_def]
  exact ⟨h1, h2, h3, h4, h5,
    normalizer_output_in_unit_interval [radarRowW1, radarRowW2] h1 h2 h3 h4 h5⟩

/-- Claim C2: for every Dataset and every Selection, FilteredView is
exactly the subsequence of Dataset records whose brand, drivetrain and
model are all selected, with row order preserved (it coincides with the
spec-side `specFilteredView`, is a sublist of the dataset, and a record
belongs to it iff it belongs to the dataset and passes all three
membership tests). -/
theorem filtered_view_exact (df : List Record) (sb sd sm : List String) :
    df_filtered df sb sd sm = specFilteredView df sb sd sm
  ∧ (df_filtered df sb sd sm).Sublist df
  ∧ ∀ r, r ∈ df_filtered df sb sd sm ↔
      r ∈ df ∧ memOpt r.brand sb = true ∧ memOpt r.drivetrain sd = true ∧
        memOpt r.model sm = true := by
  refine ⟨?_, List.filter_sublist _, ?_⟩
  · induction df with
    | nil => rfl
    | cons r rest ih =>
      rw [specFilteredView, df_filtered, List.filter_cons]
      by_cases h : (memOpt r.brand sb && memOpt r.drivetrain sd && memOpt r.model sm) = true
      · rw [if_pos h, if_pos h]
        exact congrArg (List.cons r) ih
      · rw [if_neg h, if_neg h]
        exact ih
  · intro r
    rw [df_filtered, List.mem_filter]
    simp [Bool.and_eq_true, and_assoc]

/-- Claim C3: the drivetrain options are exactly the sorted distinct
drivetrain values among records whose brand is selected, and the model
options are exactly the sorted distinct models among records whose brand
and drivetrain are both selected (sorted, duplicate-free, and with
membership characterized exactly — no under- or over-inclusion). -/
theorem cascading_options_exact (df : List Record) (sb sd : List String) :
    ((drivetrainOptions df sb).Sorted (· ≤ ·)
      ∧ (drivetrainOptions df sb).Nodup
      ∧ ∀ d, d ∈ drivetrainOptions df sb ↔
          ∃ r ∈ df, memOpt r.brand sb = true ∧ r.drivetrain = some d)
  ∧ ((modelOptions df sb sd).Sorted (· ≤ ·)
      ∧ (modelOptions df sb sd).Nodup
      ∧ ∀ m, m ∈ modelOptions df sb sd ↔
          ∃ r ∈ df, (memOpt r.brand sb = true ∧ memOpt r.drivetrain sd = true) ∧
            r.model = some m) := by
  refine ⟨⟨sortedUnique_sorted _, sortedUnique_nodup _, ?_⟩,
          ⟨sortedUnique_sorted _, sortedUnique_nodup _, ?_⟩⟩
  · intro d
    rw [drivetrainOptions, mem_sortedUnique]
    simp only [List.mem_map, List.mem_filter, Bool.and_eq_true]
    tauto
  · intro m
    rw [modelOptions, mem_sortedUnique]
    simp only [List.mem_map, List.mem_filter, Bool.and_eq_true]
    tauto

/-- Claim C7: FilteredView is always a subset of the Dataset, and if any
of the three selected sets is empty then FilteredView is empty. -/
theorem filtered_view_subset_empty_selection (df : List Record) (sb sd sm : List String) :
    (∀ r ∈ df_filtered df sb sd sm, r ∈ df)
  ∧ df_filtered df [] sd sm = []
  ∧ df_filtered df sb [] sm = []
  ∧ df_filtered df sb sd [] = [] := by
  refine ⟨fun r hr => (List.mem_filter.mp hr).1, ?_, ?_, ?_⟩ <;>
    simp [df_filtered, memOpt_nil, List.filter_eq_nil_iff]

/-- Claim C6: whenever FilteredView is empty, the page suppresses all
four charts and instead surfaces the "no selection" warning — the warning
element is rendered and no rendered element is a chart. -/
theorem empty_view_suppresses_charts (df : List Record) (sb sd sm : List String)
    (h : df_filtered df sb sd sm = []) :
    UIElement.warning "Please select at least one EV model to compare."
        ∈ renderPage (df_filtered df sb sd sm)
  ∧ ∀ e ∈ renderPage (df_filtered df sb sd sm), isChartElement e = false := by
  rw [h]
  constructor
  · simp [renderPage]
  · intro e he
    simp only [renderPage, List.isEmpty_nil, if_pos, List.mem_append, List.mem_cons,
      List.mem_singleton, List.not_mem_nil, or_false, or_assoc] at he
    rcases he with rfl | rfl | rfl | rfl <;> rfl

/-- Witness for claim C6 at the concrete empty selection. -/
theorem empty_view_suppresses_charts_witness :
    df_filtered [] [] [] [] = []
  ∧ (UIElement.warning "Please select at least one EV model to compare."
       ∈ renderPage (df_filtered [] [] [] []))
  ∧ ∀ e ∈ renderPage (df_filtered [] [] [] []), isChartElement e = false :=
  ⟨rfl, empty_view_suppresses_charts [] [] [] [] rfl⟩

/-- Claim C8: a cargo-volume cell that fails numeric parsing becomes an
absent value (not an error, not zero) and the loader modifies no other
column; rows with an absent radar feature are dropped entirely from
RadarInput (records kept in RadarInput carry their original values —
nothing is imputed — and a record failing the presence test contributes
nothing). -/
theorem lenient_cargo_coercion_and_radar_drop (parse : String → Option ℚ)
    (r : RawRecord) (rows : List Record)
    (hfail : parse r.cargo_volume_l = none) :
    ((load_row parse r).cargo_volume_l = none
      ∧ (load_row parse r).brand = r.brand
      ∧ (load_row parse r).model = r.model
      ∧ (load_row parse r).top_speed_kmh = r.top_speed_kmh
      ∧ (load_row parse r).battery_capacity_kWh = r.battery_capacity_kWh
      ∧ (load_row parse r).battery_type = r.battery_type
      ∧ (load_row parse r).torque_nm = r.torque_nm
      ∧ (load_row parse r).efficiency_wh_per_km = r.efficiency_wh_per_km
      ∧ (load_row parse r).range_km = r.range_km
      ∧ (load_row parse r).acceleration_0_100_s = r.acceleration_0_100_s
      ∧ (load_row parse r).fast_charging_power_kw_dc = r.fast_charging_power_kw_dc
      ∧ (load_row parse r).fast_charge_port = r.fast_charge_port
      ∧ (load_row parse r).towing_capacity_kg = r.towing_capacity_kg
      ∧ (load_row parse r).seats = r.seats
      ∧ (load_row parse r).drivetrain = r.drivetrain
      ∧ (load_row parse r).segment = r.segment
      ∧ (load_row parse r).length_mm = r.length_mm
      ∧ (load_row parse r).width_mm = r.width_mm
      ∧ (load_row parse r).height_mm = r.height_mm)
  ∧ (∀ rr ∈ radar_df rows, ∃ q ∈ rows,
        q.model = some rr.model ∧ q.top_speed_kmh = some rr.top_speed_kmh ∧
        q.acceleration_0_100_s = some rr.acceleration_0_100_s ∧
        q.range_km = some rr.range_km ∧
        q.battery_capacity_kWh = some rr.battery_capacity_kWh ∧
        q.cargo_volume_l = some rr.cargo_volume_l)
  ∧ (∀ q ∈ rows, hasAllRadar q = false → toRadarRow q = none) := by
  refine ⟨⟨hfail, rfl, rfl, rfl, rfl, rfl, rfl, rfl, rfl, rfl, rfl, rfl, rfl, rfl,
      rfl, rfl, rfl, rfl, rfl⟩, ?_, ?_⟩
  · intro rr hrr
    rw [radar_df, List.mem_filterMap] at hrr
    obtain ⟨q, hq, hqr⟩ := hrr
    exact ⟨q, hq, toRadarRow_eq_some hqr⟩
  · intro q _ hfalse
    exact hasAllRadar_false_toRadarRow hfalse

/-- Witness for claim C8 at a concrete unparseable cargo cell. -/
theorem lenient_cargo_coercion_and_radar_drop_witness :
    parseFailW rawRecordW.cargo_volume_l = none
  ∧ (((load_row parseFailW rawRecordW).cargo_volume_l = none
      ∧ (load_row parseFailW rawRecordW).brand = rawRecordW.brand
      ∧ (load_row parseFailW rawRecordW).model = rawRecordW.model
      ∧ (load_row parseFailW rawRecordW).top_speed_kmh = rawRecordW.top_speed_kmh
      ∧ (load_row parseFailW rawRecordW).battery_capacity_kWh = rawRecordW.battery_capacity_kWh
      ∧ (load_row parseFailW rawRecordW).battery_type = rawRecordW.battery_type
      ∧ (load_row parseFailW rawRecordW).torque_nm = rawRecordW.torque_nm
      ∧ (load_row parseFailW rawRecordW).efficiency_wh_per_km = rawRecordW.efficiency_wh_per_km
      ∧ (load_row parseFailW rawRecordW).range_km = rawRecordW.range_km
      ∧ (load_row parseFailW rawRecordW).acceleration_0_100_s = rawRecordW.acceleration_0_100_s
      ∧ (load_row parseFailW rawRecordW).fast_charging_power_kw_dc = rawRecordW.fast_charging_power_kw_dc
      ∧ (load_row parseFailW rawRecordW).fast_charge_port = rawRecordW.fast_charge_port
      ∧ (load_row parseFailW rawRecordW).towing_capacity_kg = rawRecordW.towing_capacity_kg
      ∧ (load_row parseFailW rawRecordW).seats = rawRecordW.seats
      ∧ (load_row parseFailW rawRecordW).drivetrain = rawRecordW.drivetrain
      ∧ (load_row parseFailW rawRecordW).segment = rawRecordW.segment
      ∧ (load_row parseFailW rawRecordW).length_mm = rawRecordW.length_mm
      ∧ (load_row parseFailW rawRecordW).width_mm = rawRecordW.width_mm
      ∧ (load_row parseFailW rawRecordW).height_mm = rawRecordW.height_mm)
    ∧ (∀ rr ∈ radar_df [], ∃ q ∈ ([] : List Record),
          q.model = some rr.model ∧ q.top_speed_kmh = some rr.top_speed_kmh ∧
          q.acceleration_0_100_s = some rr.acceleration_0_100_s ∧
          q.range_km = some rr.range_km ∧
          q.battery_capacity_kWh = some rr.battery_capacity_kWh ∧
          q.cargo_volume_l = some rr.cargo_volume_l)
    ∧ (∀ q ∈ ([] : List Record), hasAllRadar q = false → toRadarRow q = none)) :=
  ⟨rfl, lenient_cargo_coercion_and_radar_drop parseFailW rawRecordW [] rfl⟩

/-- Claim C9: on first render, for every dataset and every draw of the
unseeded random source, the default brand selection is a sample of
exactly min(5, |BrandOptions|) distinct brand options, the default
drivetrain selection is all drivetrain options under the brand
selection, and the default model selection is a sample of exactly
min(5, |ModelOptions|) distinct model options. -/
theorem default_selection_policy (df : List Record) (sb sd : List String)
    (drawB drawM : List String)
    (hB : drawB.Perm (brandOptions df))
    (hM : drawM.Perm (modelOptions df sb sd)) :
    ((defaultSelectedBrands df drawB).length = min 5 (brandOptions df).length
      ∧ (defaultSelectedBrands df drawB).Nodup
      ∧ ∀ x ∈ defaultSelectedBrands df drawB, x ∈ brandOptions df)
  ∧ defaultSelectedDrivetrains df sb = drivetrainOptions df sb
  ∧ ((defaultSelectedModels df sb sd drawM).length = min 5 (modelOptions df sb sd).length
      ∧ (defaultSelectedModels df sb sd drawM).Nodup
      ∧ ∀ x ∈ defaultSelectedModels df sb sd drawM, x ∈ modelOptions df sb sd) := by
  have sampleProps : ∀ (opts draw : List String), draw.Perm opts → opts.Nodup →
      (randomSample draw (min 5 opts.length)).length = min 5 opts.length
      ∧ (randomSample draw (min 5 opts.length)).Nodup
      ∧ ∀ x ∈ randomSample draw (min 5 opts.length), x ∈ opts := by
    intro opts draw hperm hnd
    refine ⟨?_, ?_, ?_⟩
    · rw [randomSample, List.length_take, hperm.length_eq,
        Nat.min_eq_left (Nat.min_le_right 5 opts.length)]
    · exact (hperm.nodup_iff.mpr hnd).sublist (List.take_sublist _ _)
    · intro x hx
      exact hperm.mem_iff.mp ((List.take_sublist _ _).subset hx)
  exact ⟨sampleProps _ _ hB (sortedUnique_nodup _), rfl,
    sampleProps _ _ hM (sortedUnique_nodup _)⟩

/-- Witness for claim C9: the identity draw on the concrete two-row
dataset. -/
theorem default_selection_policy_witness :
    (brandOptions dfW).Perm (brandOptions dfW)
  ∧ (modelOptions dfW ["A"] ["AWD"]).Perm (modelOptions dfW ["A"] ["AWD"])
  ∧ (((defaultSelectedBrands dfW (brandOptions dfW)).length
          = min 5 (brandOptions dfW).length
      ∧ (defaultSelectedBrands dfW (brandOptions dfW)).Nodup
      ∧ ∀ x ∈ defaultSelectedBrands dfW (brandOptions dfW), x ∈ brandOptions dfW)
    ∧ defaultSelectedDrivetrains dfW ["A"] = drivetrainOptions dfW ["A"]
    ∧ ((defaultSelectedModels dfW ["A"] ["AWD"] (modelOptions dfW ["A"] ["AWD"])).length
          = min 5 (modelOptions dfW ["A"] ["AWD"]).length
      ∧ (defaultSelectedModels dfW ["A"] ["AWD"] (modelOptions dfW ["A"] ["AWD"])).Nodup
      ∧ ∀ x ∈ defaultSelectedModels dfW ["A"] ["AWD"] (modelOptions dfW ["A"] ["AWD"]),
          x ∈ modelOptions dfW ["A"] ["AWD"])) :=
  ⟨List.Perm.refl _, List.Perm.refl _,
    default_selection_policy dfW ["A"] ["AWD"] (brandOptions dfW)
      (modelOptions dfW ["A"] ["AWD"]) (List.Perm.refl _) (List.Perm.refl _)⟩

theorem heapRead_write_ne (hp : PyHeap) (i j : Nat) (v : List Record) (hij : i ≠ j) :
    heapRead (heapWrite hp i v) j = heapRead hp j := by
  simp [heapRead, heapWrite, List.getD_eq_getElem?_getD, List.getElem?_set_ne hij]

theorem heapRead_alloc_lt (hp : PyHeap) (v : List Record) (j : Nat)
    (hj : j < hp.cells.length) :
    heapRead (heapAlloc hp v).1 j = heapRead hp j := by
  simp [heapRead, heapAlloc, List.getD_eq_getElem?_getD, List.getElem?_append, hj]

/-- Claim C10: the Normalizer operates on a copy of its input — running
the radar section (projection, copy, in-place negation of the copied
acceleration column, in-place scaling) leaves the `df_filtered` frame on
the heap unchanged, so the line chart built from it afterwards still uses
the raw, un-negated, un-scaled acceleration values. -/
theorem radar_copy_preserves_filtered_view (h : PyHeap) (fid : Nat)
    (hlt : fid < h.cells.length) :
    heapRead (runRadarSection h fid) fid = heapRead h fid
  ∧ lineChartData (heapRead (runRadarSection h fid) fid)
      = lineChartData (heapRead h fid) := by
  have key : heapRead (runRadarSection h fid) fid = heapRead h fid := by
    rw [runRadarSection]
    have h1 : fid < (heapAlloc h (radarFrame (heapRead h fid))).1.cells.length := by
      simp [heapAlloc]
      omega
    have h2 : fid ≠ (heapAlloc (heapAlloc h (radarFrame (heapRead h fid))).1
        (heapRead (heapAlloc h (radarFrame (heapRead h fid))).1
          (heapAlloc h (radarFrame (heapRead h fid))).2)).2 := by
      simp [heapAlloc]
      omega
    rw [heapRead_write_ne _ _ _ _ (Ne.symm h2), heapRead_write_ne _ _ _ _ (Ne.symm h2),
      heapRead_alloc_lt _ _ _ h1, heapRead_alloc_lt _ _ _ hlt]
  exact ⟨key, congrArg lineChartData key⟩

/-- Witness for claim C10 at the concrete one-cell heap. -/
theorem radar_copy_preserves_filtered_view_witness :
    0 < heapW.cells.length
  ∧ heapRead (runRadarSection heapW 0) 0 = heapRead heapW 0
  ∧ lineChartData (heapRead (runRadarSection heapW 0) 0)
      = lineChartData (heapRead heapW 0) :=
  ⟨by simp [heapW], radar_copy_preserves_filtered_view heapW 0 (by simp [heapW])⟩

end EVDash
